import Mathlib

/-!
Verification of the client-side synchronization layer of the gRPC dashboard
front-end: the reconnecting event-channel client (services/socket.ts), the
per-page merge functions (Connections/Logs/Dashboard components) and the
handler registry.  Each TypeScript function is embedded as an executable
Lean definition; the theorems below settle the documented properties.
-/

namespace GrpcDashboard

/-! String helpers mirroring JavaScript toLowerCase / includes -/

/-- Lower-cased character list of a string (JS `s.toLowerCase()` viewed as chars). -/
def lowerChars (s : String) : List Char := s.toList.map Char.toLower

/-- Does the first character list start the second one? -/
def leadsWith : List Char → List Char → Bool
  | [], _ => true
  | _ :: _, [] => false
  | a :: as, b :: bs => a == b && leadsWith as bs

/-- Does the first character list occur contiguously inside the second one? -/
def occursIn : List Char → List Char → Bool
  | n, [] => n.isEmpty
  | n, c :: rest => leadsWith n (c :: rest) || occursIn n rest

/-- JS `hay.toLowerCase().includes(needle.toLowerCase())`. -/
def strIncludesCI (hay needle : String) : Bool :=
  occursIn (lowerChars needle) (lowerChars hay)

/-! Data model (src/types/api.ts) -/

/-- LogEntry from types/api.ts. -/
structure LogEntry where
  id : String
  timestamp : String
  level : String
  message : String
  context : String
  service : Option String := none
  method : Option String := none
  traceId : Option String := none
deriving DecidableEq, Repr

/-- GrpcConnection from types/api.ts (metadata as an association list). -/
structure GrpcConnection where
  id : String
  clientId : String
  service : String
  url : String
  status : String
  established : String
  lastActivity : String
  metadata : List (String × String) := []
deriving DecidableEq, Repr

/-- LogFilter from the Logs page. -/
structure LogFilter where
  levels : List String
  service : Option String := none
  searchText : String := ""
  limit : Nat := 50
deriving DecidableEq, Repr

/-- GetLogsOptions from services/socket.ts. -/
structure GetLogsOpts where
  levels : Option (List String) := none
  service : Option String := none
  limit : Option Nat := none
deriving DecidableEq, Repr

/-! Event channel client state (services/socket.ts, class SocketService)

The mutable fields of the SocketService singleton.  `socketExists` models
`this.socket !== null`; `connected` models `this.socket.connected`. -/

structure SocketState where
  socketExists : Bool
  connected : Bool
  reconnectAttempts : Nat
  maxReconnectAttempts : Nat
  reconnectionDelay : Nat
  autoReconnect : Bool
  url : String
deriving DecidableEq, Repr

/-- Initial field values of class SocketService. -/
def initState : SocketState :=
  { socketExists := false, connected := false, reconnectAttempts := 0,
    maxReconnectAttempts := 5, reconnectionDelay := 1000,
    autoReconnect := true, url := "" }

/-- Result of one client operation or channel event: the new state, the
delays of the retry timers it scheduled (via setTimeout), and the event
names whose registered handler lists it triggered. -/
structure StepOut where
  state : SocketState
  timers : List Nat
  fired : List String
deriving DecidableEq, Repr

/-- SocketService.attemptReconnect: increments the counter and schedules one
retry after reconnectionDelay * reconnectAttempts when below the ceiling,
otherwise only logs that the maximum was reached. -/
def attemptReconnect (s : SocketState) : SocketState × List Nat :=
  if s.reconnectAttempts < s.maxReconnectAttempts then
    let s1 := { s with reconnectAttempts := s.reconnectAttempts + 1 }
    (s1, [s1.reconnectionDelay * s1.reconnectAttempts])
  else
    (s, [])

/-- SocketService.disconnect: when a socket exists, disables auto-reconnect,
tears the socket down and resets the attempt counter; otherwise a no-op. -/
def disconnectCall (s : SocketState) : SocketState :=
  if s.socketExists then
    { s with
        autoReconnect := false
        socketExists := false
        connected := false
        reconnectAttempts := 0 }
  else s

/-- SocketService.connect(url): stores the url, tears down an existing socket
via disconnect(), then creates a fresh (not yet connected) socket.  Note that
it never writes to autoReconnect. -/
def connectCall (u : String) (s : SocketState) : SocketState :=
  let s1 := { s with url := u }
  let s2 := if s1.socketExists then disconnectCall s1 else s1
  { s2 with socketExists := true, connected := false }

/-- The operations on and channel events delivered to the SocketService. -/
inductive SEvent where
  | connectCall (u : String)
  | disconnectCall
  | connectEvent
  | disconnectEvent (reason : String)
  | connectErrorEvent
  | setAutoReconnect (b : Bool)
  | configureMaxAttempts (n : Nat)
  | configureDelay (n : Nat)
deriving DecidableEq, Repr

/-- One step of the SocketService: the public calls plus the listeners
installed in connect() for the built-in connect / disconnect / connect_error
events (channel events are delivered only while a socket exists). -/
def step (e : SEvent) (s : SocketState) : StepOut :=
  match e with
  | .connectCall u => { state := connectCall u s, timers := [], fired := [] }
  | .disconnectCall => { state := disconnectCall s, timers := [], fired := [] }
  | .connectEvent =>
    if s.socketExists then
      { state := { s with connected := true, reconnectAttempts := 0 },
        timers := [], fired := ["connect"] }
    else { state := s, timers := [], fired := [] }
  | .disconnectEvent reason =>
    if s.socketExists then
      let s1 := { s with connected := false }
      if s1.autoReconnect && reason != "io client disconnect" then
        let p := attemptReconnect s1
        { state := p.1, timers := p.2, fired := ["disconnect"] }
      else
        { state := s1, timers := [], fired := ["disconnect"] }
    else { state := s, timers := [], fired := [] }
  | .connectErrorEvent =>
    if s.socketExists then
      if s.autoReconnect then
        let p := attemptReconnect s
        { state := p.1, timers := p.2, fired := ["connect_error"] }
      else
        { state := s, timers := [], fired := ["connect_error"] }
    else { state := s, timers := [], fired := [] }
  | .setAutoReconnect b =>
    { state := { s with autoReconnect := b }, timers := [], fired := [] }
  | .configureMaxAttempts n =>
    { state := { s with maxReconnectAttempts := n }, timers := [], fired := [] }
  | .configureDelay n =>
    { state := { s with reconnectionDelay := n }, timers := [], fired := [] }

/-- Run a sequence of events, collecting every retry delay scheduled. -/
def runEvents : List SEvent → SocketState → SocketState × List Nat
  | [], s => (s, [])
  | e :: es, s =>
    let o := step e s
    let p := runEvents es o.state
    (p.1, o.timers ++ p.2)

/-- States reachable from the initial field values by any event sequence. -/
inductive Reachable : SocketState → Prop where
  | init : Reachable initState
  | next (e : SEvent) {s : SocketState} :
      Reachable s → Reachable (step e s).state

/-- Events that report a connection failure: an unexpected close (any reason
other than the explicit local one) or a connect_error. -/
def isFailureEvent : SEvent → Bool
  | .disconnectEvent reason => reason != "io client disconnect"
  | .connectErrorEvent => true
  | _ => false

/-! Outbound named requests (socket.ts getServices/getConnections/getLogs/getStats) -/

/-- Result of one outbound request call: the (unchanged) client state, the
events emitted on the channel with their payload, and the console warnings. -/
structure EmitOut where
  state : SocketState
  emitted : List (String × Option GetLogsOpts)
  warnings : List String
deriving DecidableEq, Repr

/-- SocketService.getServices. -/
def socketGetServices (s : SocketState) : EmitOut :=
  if s.socketExists && s.connected then
    { state := s, emitted := [("getServices", none)], warnings := [] }
  else
    { state := s, emitted := [],
      warnings := ["Cannot get services: Socket not connected"] }

/-- SocketService.getConnections. -/
def socketGetConnections (s : SocketState) : EmitOut :=
  if s.socketExists && s.connected then
    { state := s, emitted := [("getConnections", none)], warnings := [] }
  else
    { state := s, emitted := [],
      warnings := ["Cannot get connections: Socket not connected"] }

/-- SocketService.getLogs. -/
def socketGetLogs (opts : Option GetLogsOpts) (s : SocketState) : EmitOut :=
  if s.socketExists && s.connected then
    { state := s, emitted := [("getLogs", opts)], warnings := [] }
  else
    { state := s, emitted := [],
      warnings := ["Cannot get logs: Socket not connected"] }

/-- SocketService.getStats. -/
def socketGetStats (s : SocketState) : EmitOut :=
  if s.socketExists && s.connected then
    { state := s, emitted := [("getStats", none)], warnings := [] }
  else
    { state := s, emitted := [],
      warnings := ["Cannot get stats: Socket not connected"] }

/-! Handler registry (socket.ts on / off / triggerHandlers)

Handlers per event name, with JS function identity modelled by decidable
equality on the handler type.  A handler either returns normally or throws
(Except.error), and triggerHandlers wraps each invocation in try/catch. -/

/-- SocketService.on: appends the handler to the list of the event (creating the
list on first use).  The unregistration capability it returns performs
exactly `offRemove` on the same event and handler. -/
def onRegister {H : Type} (m : String → List H) (e : String) (f : H) :
    String → List H :=
  fun x => if x == e then m x ++ [f] else m x

/-- SocketService.off: filters out every occurrence of the handler (by
identity) from the list of the event; other events are untouched. -/
def offRemove {H : Type} [DecidableEq H] (m : String → List H) (e : String)
    (f : H) : String → List H :=
  fun x => if x == e then (m x).filter (fun y => decide (y ≠ f)) else m x

/-- SocketService.triggerHandlers body: forEach over the list, invoking each
handler inside try/catch, so a throwing handler is recorded (logged) and the
remaining handlers still run; nothing propagates to the caller. -/
def dispatchHandlers {α β : Type} (x : α) :
    List (α → Except String β) → List (Except String β)
  | [] => []
  | f :: rest =>
    match f x with
    | .ok v => .ok v :: dispatchHandlers x rest
    | .error msg => .error msg :: dispatchHandlers x rest

/-- SocketService.triggerHandlers: look up the handler list of the event (missing
list means no handlers) and dispatch to it. -/
def triggerEvent {α β : Type} (m : String → List (α → Except String β))
    (e : String) (x : α) : List (Except String β) :=
  dispatchHandlers x (m e)

/-! Connections page (pages/Connections.tsx, Connections component) -/

/-- Connections.handleConnectionUpdate: upsert of a single pushed record,
matching by id; replace in place when found (findIndex >= 0), else append. -/
def handleConnectionUpdate (connection : GrpcConnection)
    (prev : List GrpcConnection) : List GrpcConnection :=
  match prev.findIdx? (fun c => c.id == connection.id) with
  | some i => prev.set i connection
  | none => prev ++ [connection]

/-- A sequence of single-record upserts, applied in arrival order. -/
def applyConnectionUpdates (cs : List GrpcConnection)
    (prev : List GrpcConnection) : List GrpcConnection :=
  cs.foldl (fun acc c => handleConnectionUpdate c acc) prev

/-- The search predicate of Connections.filteredConnections. -/
def connMatchesSearch (searchText : String) (conn : GrpcConnection) : Bool :=
  strIncludesCI conn.clientId searchText ||
  strIncludesCI conn.service searchText ||
  strIncludesCI conn.url searchText ||
  strIncludesCI conn.status searchText

/-- Connections.filteredConnections: identity on empty search text, else a
pure filter of the stored list. -/
def filteredConnections (searchText : String)
    (connections : List GrpcConnection) : List GrpcConnection :=
  if searchText == "" then connections
  else connections.filter (connMatchesSearch searchText)

/-- View-state of the Connections component relevant to filtering. -/
structure ConnectionsState where
  connections : List GrpcConnection
  searchText : String
deriving DecidableEq, Repr

/-- setSearchText: a search-text change touches only the filter input. -/
def setSearchText (t : String) (st : ConnectionsState) : ConnectionsState :=
  { st with searchText := t }

/-- A sequence of search-text changes. -/
def applySearchChanges (ts : List String) (st : ConnectionsState) :
    ConnectionsState :=
  ts.foldl (fun acc t => setSearchText t acc) st

/-! Logs page (pages/Connections.tsx, Logs component) -/

/-- The ingestion filter check of Logs.handleLogUpdate (lines 645-653). -/
def matchesLogFilters (filters : LogFilter) (log : LogEntry) : Bool :=
  filters.levels.contains log.level &&
  (filters.service.isNone ||
    (log.service.isSome && log.service == filters.service)) &&
  (filters.searchText == "" ||
    strIncludesCI log.message filters.searchText ||
    strIncludesCI log.context filters.searchText ||
    (match log.service with
     | some sv => strIncludesCI sv filters.searchText
     | none => false) ||
    (match log.method with
     | some me => strIncludesCI me filters.searchText
     | none => false))

/-- Logs.handleLogUpdate: when the pushed entry matches the active filters,
prepend it and keep the first limit - 1 old entries (slice(0, limit - 1));
otherwise the stored list is untouched.  All uses have limit >= 1. -/
def logsHandleLogUpdate (filters : LogFilter) (log : LogEntry)
    (prev : List LogEntry) : List LogEntry :=
  if matchesLogFilters filters log then log :: prev.take (filters.limit - 1)
  else prev

/-- The free-text predicate of Logs.filteredLogs. -/
def logMatchesSearch (searchText : String) (log : LogEntry) : Bool :=
  strIncludesCI log.message searchText ||
  strIncludesCI log.context searchText ||
  (match log.service with
   | some sv => strIncludesCI sv searchText
   | none => false) ||
  (match log.method with
   | some me => strIncludesCI me searchText
   | none => false) ||
  (match log.traceId with
   | some tr => strIncludesCI tr searchText
   | none => false)

/-- Logs.filteredLogs: identity on empty search text, else a pure filter. -/
def logsFilteredLogs (filters : LogFilter) (logs : List LogEntry) :
    List LogEntry :=
  if filters.searchText == "" then logs
  else logs.filter (logMatchesSearch filters.searchText)

/-- View-state of the Logs component relevant to filtering. -/
structure LogsState where
  logs : List LogEntry
  filters : LogFilter
deriving DecidableEq, Repr

/-- setFilters: a filter change (applyFilters, debounced search, reset,
loading a saved set) writes only the filters slot. -/
def setFilters (f : LogFilter) (st : LogsState) : LogsState :=
  { st with filters := f }

/-- A sequence of filter changes. -/
def applyFilterChanges (fs : List LogFilter) (st : LogsState) : LogsState :=
  fs.foldl (fun acc f => setFilters f acc) st

/-! Dashboard page (pages/Dashboard.tsx) -/

/-- Dashboard.handleLogUpdate: prepend and keep the newest five. -/
def dashboardHandleLogUpdate (log : LogEntry) (prev : List LogEntry) :
    List LogEntry :=
  (log :: prev).take 5

/-! Concrete data used to evaluate the theorems on closed inputs -/

/-- The default filter state of the Logs component. -/
def defaultLogFilter : LogFilter :=
  { levels := ["error", "warn", "info", "debug", "verbose"],
    service := none, searchText := "", limit := 50 }

/-- An info-level log entry, numbered. -/
def mkLog (i : Nat) : LogEntry :=
  { id := toString i, timestamp := "", level := "info",
    message := toString i, context := "app" }

/-- Sixty sequentially pushed log entries. -/
def scenarioLogs : List LogEntry := (List.range 60).map mkLog

/-- The stored sequence after the sixty pushes, starting empty. -/
def scenarioResult : List LogEntry :=
  scenarioLogs.foldl (fun p l => logsHandleLogUpdate defaultLogFilter l p) []

/-- A connected client state (after connect() and the connect event). -/
def connState : SocketState :=
  (step .connectEvent (step (.connectCall "http://a") initState).state).state

/-- The state after an explicit disconnect() from `connState`. -/
def c1DisState : SocketState :=
  (step .disconnectCall connState).state

/-- The state after a subsequent explicit connect() from `c1DisState`. -/
def c1ReState : SocketState :=
  (step (.connectCall "http://a") c1DisState).state

/-- A client state whose attempt counter has reached the default ceiling. -/
def exhaustedState : SocketState :=
  { socketExists := true, connected := false, reconnectAttempts := 5,
    maxReconnectAttempts := 5, reconnectionDelay := 1000,
    autoReconnect := true, url := "http://a" }

/-- Sample connection records. -/
def connRec1 : GrpcConnection :=
  { id := "c1", clientId := "alpha", service := "svc.A", url := "http://a",
    status := "connected", established := "t0", lastActivity := "t1" }

/-- Sample connection records. -/
def connRec2 : GrpcConnection :=
  { id := "c2", clientId := "beta", service := "svc.B", url := "http://b",
    status := "connected", established := "t0", lastActivity := "t2" }

/-- An update carrying the id of `connRec2`. -/
def connRec2Upd : GrpcConnection :=
  { id := "c2", clientId := "beta", service := "svc.B", url := "http://b",
    status := "disconnected", established := "t0", lastActivity := "t3" }

/-- A record with a previously-unseen id. -/
def connRec3 : GrpcConnection :=
  { id := "c3", clientId := "gamma", service := "svc.C", url := "http://c",
    status := "connected", established := "t4", lastActivity := "t4" }

/-- A burst of failure events arriving after exhaustion. -/
def c2Events : List SEvent :=
  [.connectErrorEvent, .disconnectEvent "transport close", .connectErrorEvent]

/-- A reconnecting client state with two prior attempts. -/
def reconState2 : SocketState :=
  { socketExists := true, connected := false, reconnectAttempts := 2,
    maxReconnectAttempts := 5, reconnectionDelay := 1000,
    autoReconnect := true, url := "http://a" }

/-- A handler that returns normally. -/
def wHandlerOk : Nat → Except String Nat := fun n => Except.ok n

/-- A handler that throws. -/
def wHandlerBad : Nat → Except String Nat := fun _ => Except.error "boom"

/-- A registry with one handler on the log event. -/
def wHandlers : String → List (Nat → Except String Nat) :=
  fun x => if x == "log" then [wHandlerOk] else []

/-- A registry over numeric handler ids, with a duplicate registration. -/
def wRegistry : String → List Nat :=
  fun x => if x == "log" then [7, 8, 7] else [9]

/-- The outcome of an outbound request while connected: one emission. -/
def emittedOut (s : SocketState) (req : String × Option GetLogsOpts) : EmitOut :=
  { state := s, emitted := [req], warnings := [] }

/-- The outcome of an outbound request while not connected: dropped with a
warning, nothing queued. -/
def droppedOut (s : SocketState) (w : String) : EmitOut :=
  { state := s, emitted := [], warnings := [w] }

/-! Lemmas about the reconnection state machine -/

theorem failure_step_facts (s : SocketState) (e : SEvent)
    (he : isFailureEvent e = true)
    (hconn : s.connected = false)
    (hmax : s.maxReconnectAttempts ≤ s.reconnectAttempts) :
    (step e s).timers = [] ∧
    (step e s).state.reconnectAttempts = s.reconnectAttempts ∧
    (step e s).state.maxReconnectAttempts = s.maxReconnectAttempts ∧
    (step e s).state.connected = false := by
  have hnl : ¬ s.reconnectAttempts < s.maxReconnectAttempts := Nat.not_lt.mpr hmax
  cases e with
  | disconnectEvent r =>
    cases hsock : s.socketExists with
    | false => simp [step, hsock, hconn]
    | true =>
      cases hauto : s.autoReconnect with
      | false => simp [step, hsock, hauto]
      | true => simp [step, hsock, hauto, attemptReconnect, hnl]
  | connectErrorEvent =>
    cases hsock : s.socketExists with
    | false => simp [step, hsock, hconn]
    | true =>
      cases hauto : s.autoReconnect with
      | false => simp [step, hsock, hauto, hconn]
      | true => simp [step, hsock, hauto, attemptReconnect, hnl, hconn]
  | connectCall u => simp [isFailureEvent] at he
  | disconnectCall => simp [isFailureEvent] at he
  | connectEvent => simp [isFailureEvent] at he
  | setAutoReconnect b => simp [isFailureEvent] at he
  | configureMaxAttempts n => simp [isFailureEvent] at he
  | configureDelay n => simp [isFailureEvent] at he

theorem runEvents_exhausted (es : List SEvent) (s : SocketState)
    (hall : ∀ e ∈ es, isFailureEvent e = true)
    (hconn : s.connected = false)
    (hmax : s.maxReconnectAttempts ≤ s.reconnectAttempts) :
    (runEvents es s).2 = [] ∧
    (runEvents es s).1.reconnectAttempts = s.reconnectAttempts ∧
    (runEvents es s).1.maxReconnectAttempts = s.maxReconnectAttempts ∧
    (runEvents es s).1.connected = false := by
  induction es generalizing s with
  | nil => exact ⟨rfl, rfl, rfl, hconn⟩
  | cons e es ih =>
    have he : isFailureEvent e = true := hall e (by simp)
    have hstep := failure_step_facts s e he hconn hmax
    have hrest := ih (fun x hx => hall x (by simp [hx])) (s := (step e s).state)
      hstep.2.2.2 (by rw [hstep.2.1, hstep.2.2.1]; exact hmax)
    refine ⟨?_, ?_, ?_, ?_⟩
    · simp [runEvents, hstep.1, hrest.1]
    · simp [runEvents, hrest.2.1, hstep.2.1]
    · simp [runEvents, hrest.2.2.1, hstep.2.2.1]
    · simp [runEvents, hrest.2.2.2]

theorem reachable_attempts_zero {s : SocketState} (h : Reachable s) :
    s.socketExists = false → s.reconnectAttempts = 0 := by
  induction h with
  | init => intro _; rfl
  | next e hr ih =>
    rename_i t
    cases e with
    | connectCall u =>
      intro hx
      simp [step, connectCall] at hx
    | disconnectCall =>
      cases hsock : t.socketExists with
      | false => simpa [step, disconnectCall, hsock] using ih
      | true => intro _; simp [step, disconnectCall, hsock]
    | connectEvent =>
      cases hsock : t.socketExists with
      | false => simpa [step, hsock] using ih
      | true => intro _; simp [step, hsock]
    | disconnectEvent r =>
      cases hsock : t.socketExists with
      | false => simpa [step, hsock] using ih
      | true =>
        intro hx
        exfalso
        revert hx
        simp only [step, hsock, if_true]
        split
        · simp only [attemptReconnect]
          split <;> simp [hsock]
        · simp [hsock]
    | connectErrorEvent =>
      cases hsock : t.socketExists with
      | false => simpa [step, hsock] using ih
      | true =>
        intro hx
        exfalso
        revert hx
        simp only [step, hsock, if_true]
        split
        · simp only [attemptReconnect]
          split <;> simp [hsock]
        · simp [hsock]
    | setAutoReconnect b => simpa [step] using ih
    | configureMaxAttempts n => simpa [step] using ih
    | configureDelay n => simpa [step] using ih

/-! Claim C1 -/

/-- Claim C1 is false on the code: starting from the connected state, an
explicit disconnect() disables auto-reconnect, and a subsequent explicit
connect() leaves it disabled (connect never writes autoReconnect), so a later
unexpected close — with zero prior attempts out of the default ceiling of
five — schedules no retry at all. -/
theorem C1_counterexample :
    c1DisState.autoReconnect = false ∧
    c1ReState.autoReconnect = false ∧
    c1ReState.reconnectAttempts = 0 ∧
    c1ReState.maxReconnectAttempts = 5 ∧
    (step (.disconnectEvent "transport close") c1ReState).timers = [] ∧
    (step (.disconnectEvent "transport close") c1ReState).state.reconnectAttempts
      = 0 := by
  decide

/-- Claim C1 amended: once auto-reconnect is disabled by an explicit
disconnect(), a subsequent explicit connect(address) does NOT re-enable it —
auto-reconnect stays disabled, so a later unexpected close schedules no retry
and leaves the attempt counter unchanged; only setAutoReconnect(true)
re-enables the automatic reconnection policy. -/
theorem C1_connect_no_reenable (s : SocketState) (u r : String)
    (hauto : s.autoReconnect = false)
    (hr : (r == "io client disconnect") = false) :
    ((step (.connectCall u) s).state).autoReconnect = false ∧
    (step (.disconnectEvent r) (step (.connectCall u) s).state).timers = [] ∧
    (step (.disconnectEvent r) (step (.connectCall u) s).state).state.reconnectAttempts
      = ((step (.connectCall u) s).state).reconnectAttempts ∧
    ((step (.setAutoReconnect true) s).state).autoReconnect = true := by
  have h1 : ((step (.connectCall u) s).state).autoReconnect = false := by
    cases hsock : s.socketExists <;>
      simp [step, connectCall, disconnectCall, hsock, hauto]
  have h2 : ((step (.connectCall u) s).state).socketExists = true := by
    cases hsock : s.socketExists <;>
      simp [step, connectCall, disconnectCall, hsock]
  have h1c : (connectCall u s).autoReconnect = false := h1
  have h2c : (connectCall u s).socketExists = true := h2
  have hrne : r ≠ "io client disconnect" := ne_of_beq_false hr
  refine ⟨h1, ?_, ?_, by simp [step]⟩ <;> simp [step, h1c, h2c, hrne]

/-- Witness for the amended C1 at the concrete post-disconnect state. -/
theorem C1_connect_no_reenable_witness :
    ((step (.connectCall "http://a") c1DisState).state).autoReconnect = false ∧
    (step (.disconnectEvent "transport close")
        (step (.connectCall "http://a") c1DisState).state).timers = [] ∧
    (step (.disconnectEvent "transport close")
        (step (.connectCall "http://a") c1DisState).state).state.reconnectAttempts
      = ((step (.connectCall "http://a") c1DisState).state).reconnectAttempts ∧
    ((step (.setAutoReconnect true) c1DisState).state).autoReconnect = true :=
  C1_connect_no_reenable c1DisState "http://a" "transport close"
    (by decide) (by decide)

/-! Claim C2 -/

/-- Claim C2: once the attempt counter has reached the configured maximum,
any further sequence of failure events (unexpected closes, connect_error)
schedules no retry timer at all and leaves the client disconnected with the
counter unchanged; each terminal failure is still reported to the registered
disconnect and connect_error handler lists. -/
theorem C2_reconnect_exhausted (s : SocketState)
    (hconn : s.connected = false)
    (hmax : s.maxReconnectAttempts ≤ s.reconnectAttempts) :
    (∀ es : List SEvent, (∀ e ∈ es, isFailureEvent e = true) →
      (runEvents es s).2 = [] ∧
      (runEvents es s).1.connected = false ∧
      (runEvents es s).1.reconnectAttempts = s.reconnectAttempts) ∧
    (s.socketExists = true →
      ∀ r : String, (r == "io client disconnect") = false →
        (step (.disconnectEvent r) s).fired = ["disconnect"] ∧
        (step .connectErrorEvent s).fired = ["connect_error"]) := by
  constructor
  · intro es hall
    have h := runEvents_exhausted es s hall hconn hmax
    exact ⟨h.1, h.2.2.2, h.2.1⟩
  · intro hsock r hr
    constructor
    · simp only [step, hsock, if_true]
      split <;> rfl
    · simp only [step, hsock, if_true]
      split <;> rfl

/-- Witness for C2 at the exhausted state with a concrete failure burst. -/
theorem C2_reconnect_exhausted_witness :
    ((runEvents c2Events exhaustedState).2 = [] ∧
     (runEvents c2Events exhaustedState).1.connected = false ∧
     (runEvents c2Events exhaustedState).1.reconnectAttempts
       = exhaustedState.reconnectAttempts) ∧
    (step (.disconnectEvent "transport close") exhaustedState).fired
      = ["disconnect"] ∧
    (step .connectErrorEvent exhaustedState).fired = ["connect_error"] := by
  have h := C2_reconnect_exhausted exhaustedState (by decide) (by decide)
  exact ⟨h.1 c2Events (by decide), h.2 (by decide) "transport close" (by decide)⟩

/-! Claim C3 -/

/-- Claim C3: on an unexpected close (or a connect_error) with auto-reconnect
enabled and fewer than the maximum prior attempts, the counter becomes
exactly k = attempts + 1 and exactly one retry is scheduled, after
reconnectionDelay * k — linear backoff — for every attempt number k from 1
up to the ceiling; the defaults are a base delay of 1000 and a ceiling 5. -/
theorem C3_linear_backoff (s : SocketState) (r : String) (k : Nat)
    (hsock : s.socketExists = true)
    (hauto : s.autoReconnect = true)
    (hk : s.reconnectAttempts + 1 = k)
    (hlt : s.reconnectAttempts < s.maxReconnectAttempts)
    (hr : (r == "io client disconnect") = false) :
    ((step (.disconnectEvent r) s).state.reconnectAttempts = k ∧
     (step (.disconnectEvent r) s).timers = [s.reconnectionDelay * k] ∧
     (step (.disconnectEvent r) s).state.connected = false) ∧
    ((step .connectErrorEvent s).state.reconnectAttempts = k ∧
     (step .connectErrorEvent s).timers = [s.reconnectionDelay * k]) ∧
    (initState.reconnectionDelay = 1000 ∧ initState.maxReconnectAttempts = 5) := by
  subst hk
  have hrne : r ≠ "io client disconnect" := ne_of_beq_false hr
  refine ⟨⟨?_, ?_, ?_⟩, ⟨?_, ?_⟩, by decide⟩ <;>
    simp [step, hsock, hauto, hrne, attemptReconnect, hlt]

/-- Witness for C3: from two prior attempts, the third retry is scheduled
after 3000 time units. -/
theorem C3_linear_backoff_witness :
    ((step (.disconnectEvent "transport close") reconState2).state.reconnectAttempts = 3 ∧
     (step (.disconnectEvent "transport close") reconState2).timers
       = [reconState2.reconnectionDelay * 3] ∧
     (step (.disconnectEvent "transport close") reconState2).state.connected = false) ∧
    ((step .connectErrorEvent reconState2).state.reconnectAttempts = 3 ∧
     (step .connectErrorEvent reconState2).timers
       = [reconState2.reconnectionDelay * 3]) ∧
    (initState.reconnectionDelay = 1000 ∧ initState.maxReconnectAttempts = 5) :=
  C3_linear_backoff reconState2 "transport close" 3 (by decide) (by decide)
    (by decide) (by decide) (by decide)

/-! Claim C4 -/

/-- Claim C4: in every reachable client state, the attempt counter is 0
immediately after the connect event fires and immediately after an explicit
disconnect() call (when no socket exists neither touches the state, and the
counter is already 0 there by the reachability invariant). -/
theorem C4_attempts_reset (s : SocketState) (h : Reachable s) :
    (step .connectEvent s).state.reconnectAttempts = 0 ∧
    (step .disconnectCall s).state.reconnectAttempts = 0 := by
  have hz := reachable_attempts_zero h
  cases hsock : s.socketExists with
  | true => constructor <;> simp [step, disconnectCall, hsock]
  | false => constructor <;> simp [step, disconnectCall, hsock, hz hsock]

/-- Witness for C4 at the initial (trivially reachable) state. -/
theorem C4_attempts_reset_witness :
    (step .connectEvent initState).state.reconnectAttempts = 0 ∧
    (step .disconnectCall initState).state.reconnectAttempts = 0 :=
  C4_attempts_reset initState Reachable.init

/-! Lemmas about the view-state filters -/

theorem applyFilterChanges_logs (fs : List LogFilter) (st : LogsState) :
    (applyFilterChanges fs st).logs = st.logs := by
  induction fs generalizing st with
  | nil => rfl
  | cons f fs ih => exact ih (setFilters f st)

theorem applySearchChanges_connections (ts : List String)
    (st : ConnectionsState) :
    (applySearchChanges ts st).connections = st.connections := by
  induction ts generalizing st with
  | nil => rfl
  | cons t ts ih => exact ih (setSearchText t st)

/-! Claim C5 -/

/-- Claim C5: the severity / service / free-text filters are pure projections
of the stored view-state — any sequence of filter changes leaves the stored
log sequence and the stored connections list untouched (so nothing previously
received is lost), and the filtered views are sublists of the stored data. -/
theorem C5_filters_pure (st : LogsState) (fs : List LogFilter)
    (cst : ConnectionsState) (ts : List String) :
    (applyFilterChanges fs st).logs = st.logs ∧
    List.Sublist (logsFilteredLogs st.filters st.logs) st.logs ∧
    (applySearchChanges ts cst).connections = cst.connections ∧
    List.Sublist (filteredConnections cst.searchText cst.connections)
      cst.connections := by
  refine ⟨applyFilterChanges_logs fs st, ?_,
    applySearchChanges_connections ts cst, ?_⟩
  · unfold logsFilteredLogs
    split
    · exact List.Sublist.refl _
    · exact List.filter_sublist _
  · unfold filteredConnections
    split
    · exact List.Sublist.refl _
    · exact List.filter_sublist _

/-! Lemmas about the connection upsert -/

theorem handleConnectionUpdate_cons (c x : GrpcConnection)
    (xs : List GrpcConnection) :
    handleConnectionUpdate c (x :: xs) =
      if x.id == c.id then c :: xs else x :: handleConnectionUpdate c xs := by
  unfold handleConnectionUpdate
  cases hx : x.id == c.id with
  | true => simp [List.findIdx?_cons, hx]
  | false =>
    simp only [List.findIdx?_cons, hx, Bool.false_eq_true, if_false,
      List.findIdx?_start_succ]
    cases h2 : xs.findIdx? (fun c2 => c2.id == c.id) with
    | none => simp
    | some i => simp

theorem upsert_of_forall_ne (c : GrpcConnection) (prev : List GrpcConnection)
    (h : ∀ x ∈ prev, x.id ≠ c.id) :
    handleConnectionUpdate c prev = prev ++ [c] := by
  induction prev with
  | nil => rfl
  | cons x xs ih =>
    rw [handleConnectionUpdate_cons]
    have hx : (x.id == c.id) = false :=
      beq_eq_false_iff_ne.mpr (h x (by simp))
    simp [hx, ih (fun y hy => h y (by simp [hy]))]

theorem upsert_set_of_get (c : GrpcConnection) (prev : List GrpcConnection)
    (hnd : (prev.map (fun x => x.id)).Nodup) (i : Nat) (hi : i < prev.length)
    (hid : (prev.get ⟨i, hi⟩).id = c.id) :
    handleConnectionUpdate c prev = prev.set i c := by
  induction prev generalizing i with
  | nil => exact absurd hi (by simp)
  | cons x xs ih =>
    rw [handleConnectionUpdate_cons]
    simp only [List.map_cons, List.nodup_cons, List.mem_map] at hnd
    cases i with
    | zero =>
      simp only [List.get] at hid
      simp [beq_iff_eq.mpr hid]
    | succ j =>
      have hj : j < xs.length := by simpa using hi
      have hidj : (xs.get ⟨j, hj⟩).id = c.id := hid
      have hxne : (x.id == c.id) = false := by
        refine beq_eq_false_iff_ne.mpr ?_
        intro hxc
        exact hnd.1 ⟨xs.get ⟨j, hj⟩, List.get_mem xs j hj, by rw [hidj, hxc]⟩
      simp [hxne, ih hnd.2 j hj hidj]

theorem mem_ids_upsert (c : GrpcConnection) (xs : List GrpcConnection)
    (a : String) (ha : a ∈ (handleConnectionUpdate c xs).map (fun x => x.id)) :
    a ∈ xs.map (fun x => x.id) ∨ a = c.id := by
  induction xs with
  | nil =>
    simp only [handleConnectionUpdate, List.findIdx?_nil, List.nil_append,
      List.map_cons, List.map_nil, List.mem_singleton] at ha
    exact Or.inr ha
  | cons x xs ih =>
    rw [handleConnectionUpdate_cons] at ha
    cases hx : x.id == c.id with
    | true =>
      rw [hx] at ha
      simp only [if_true, List.map_cons, List.mem_cons] at ha
      rcases ha with h | h
      · exact Or.inr h
      · exact Or.inl (by
          simp only [List.map_cons]
          exact List.mem_cons_of_mem _ h)
    | false =>
      rw [hx] at ha
      simp only [Bool.false_eq_true, if_false, List.map_cons,
        List.mem_cons] at ha
      rcases ha with h | h
      · exact Or.inl (by simp [h])
      · rcases ih h with h2 | h2
        · exact Or.inl (by
            simp only [List.map_cons]
            exact List.mem_cons_of_mem _ h2)
        · exact Or.inr h2

theorem upsert_nodup (c : GrpcConnection) (prev : List GrpcConnection)
    (hnd : (prev.map (fun x => x.id)).Nodup) :
    ((handleConnectionUpdate c prev).map (fun x => x.id)).Nodup := by
  induction prev with
  | nil => simp [handleConnectionUpdate]
  | cons x xs ih =>
    rw [handleConnectionUpdate_cons]
    simp only [List.map_cons, List.nodup_cons, List.mem_map] at hnd
    cases hx : x.id == c.id with
    | true =>
      have hxc : x.id = c.id := beq_iff_eq.mp hx
      simp only [if_true, List.map_cons, List.nodup_cons, List.mem_map]
      exact ⟨fun ⟨y, hy, hyid⟩ => hnd.1 ⟨y, hy, by rw [hyid, hxc]⟩, hnd.2⟩
    | false =>
      have hxc : x.id ≠ c.id := beq_eq_false_iff_ne.mp hx
      simp only [Bool.false_eq_true, if_false, List.map_cons,
        List.nodup_cons]
      refine ⟨?_, ih hnd.2⟩
      intro hmem
      rcases mem_ids_upsert c xs x.id hmem with h | h
      · exact hnd.1 (by simpa [List.mem_map] using h)
      · exact hxc h

theorem applyConnectionUpdates_nodup (cs prev : List GrpcConnection)
    (hnd : (prev.map (fun x => x.id)).Nodup) :
    ((applyConnectionUpdates cs prev).map (fun x => x.id)).Nodup := by
  induction cs generalizing prev with
  | nil => exact hnd
  | cons c cs ih => exact ih (handleConnectionUpdate c prev) (upsert_nodup c prev hnd)

/-! Claim C6 -/

/-- Claim C6: single-record upserts match by id — an unseen id is appended at
the end, a seen id replaces the existing record at its current position, and
starting from a duplicate-free list every sequence of upserts keeps the ids
duplicate-free. -/
theorem C6_upsert (prev : List GrpcConnection) (c : GrpcConnection)
    (cs : List GrpcConnection)
    (hnd : (prev.map (fun x => x.id)).Nodup) :
    ((∀ x ∈ prev, x.id ≠ c.id) → handleConnectionUpdate c prev = prev ++ [c]) ∧
    (∀ (i : Nat) (hi : i < prev.length), (prev.get ⟨i, hi⟩).id = c.id →
      handleConnectionUpdate c prev = prev.set i c) ∧
    ((applyConnectionUpdates cs prev).map (fun x => x.id)).Nodup :=
  ⟨upsert_of_forall_ne c prev,
   fun i hi hid => upsert_set_of_get c prev hnd i hi hid,
   applyConnectionUpdates_nodup cs prev hnd⟩

/-- Witness for C6 on concrete records: append of a fresh id, in-place
replacement of a seen id, and duplicate-freedom after both upserts. -/
theorem C6_upsert_witness :
    handleConnectionUpdate connRec3 [connRec1, connRec2]
      = [connRec1, connRec2] ++ [connRec3] ∧
    handleConnectionUpdate connRec2Upd [connRec1, connRec2]
      = [connRec1, connRec2].set 1 connRec2Upd ∧
    ((applyConnectionUpdates [connRec3, connRec2Upd]
        [connRec1, connRec2]).map (fun x => x.id)).Nodup :=
  ⟨(C6_upsert [connRec1, connRec2] connRec3 [] (by decide)).1 (by decide),
   (C6_upsert [connRec1, connRec2] connRec2Upd [] (by decide)).2.1 1
     (by decide) (by decide),
   (C6_upsert [connRec1, connRec2] connRec3 [connRec3, connRec2Upd]
     (by decide)).2.2⟩

/-! Lemmas about the bounded log push -/

theorem logsHandleLogUpdate_matches (F : LogFilter) (l : LogEntry)
    (prev : List LogEntry) (hm : matchesLogFilters F l = true)
    (hL : 1 ≤ F.limit) :
    logsHandleLogUpdate F l prev = (l :: prev).take F.limit := by
  unfold logsHandleLogUpdate
  rw [if_pos hm]
  cases hF : F.limit with
  | zero => omega
  | succ n => simp [List.take_succ_cons]

theorem take_append_take {α : Type} (A B : List α) (L : Nat) :
    (A ++ B.take L).take L = (A ++ B).take L := by
  rw [List.take_append_eq_append_take, List.take_append_eq_append_take,
    List.take_take]
  rw [Nat.min_eq_left (Nat.sub_le L A.length)]

theorem foldl_push_take (F : LogFilter) (cs s : List LogEntry)
    (hL : 1 ≤ F.limit) (hs : s.length ≤ F.limit)
    (hall : ∀ l ∈ cs, matchesLogFilters F l = true) :
    cs.foldl (fun p l => logsHandleLogUpdate F l p) s
      = (cs.reverse ++ s).take F.limit := by
  induction cs generalizing s with
  | nil => simp [List.take_of_length_le hs]
  | cons c cs ih =>
    have hc : matchesLogFilters F c = true := hall c (by simp)
    simp only [List.foldl_cons]
    rw [logsHandleLogUpdate_matches F c s hc hL]
    rw [ih ((c :: s).take F.limit)
      (by simp [List.length_take])
      (fun x hx => hall x (by simp [hx]))]
    rw [take_append_take]
    simp [List.reverse_cons, List.append_assoc]

/-! Claim C7 -/

/-- Claim C7: after any matching prepend-and-truncate push with limit at
least 1, the stored sequence has length at most the limit (the Dashboard
variant is bounded by its fixed limit 5); and in the concrete scenario —
start empty, limit 50, sixty sequential pushes — the stored sequence is
exactly the 50 most recent entries, newest first. -/
theorem C7_bounded_log (F : LogFilter) (l : LogEntry) (prev : List LogEntry)
    (hL : 1 ≤ F.limit) :
    (matchesLogFilters F l = true →
      (logsHandleLogUpdate F l prev).length ≤ F.limit) ∧
    (∀ (l2 : LogEntry) (p2 : List LogEntry),
      (dashboardHandleLogUpdate l2 p2).length ≤ 5) ∧
    scenarioResult.length = 50 ∧
    scenarioResult = scenarioLogs.reverse.take 50 := by
  have hsc : scenarioResult = scenarioLogs.reverse.take 50 := by
    have hall : ∀ x ∈ scenarioLogs, matchesLogFilters defaultLogFilter x = true := by
      intro x hx
      simp only [scenarioLogs, List.mem_map] at hx
      obtain ⟨i, -, rfl⟩ := hx
      rfl
    have h := foldl_push_take defaultLogFilter scenarioLogs []
      (by decide) (by simp) hall
    simpa [scenarioResult] using h
  refine ⟨?_, ?_, ?_, hsc⟩
  · intro hm
    rw [logsHandleLogUpdate_matches F l prev hm hL]
    simp [List.length_take]
  · intro l2 p2
    simp [dashboardHandleLogUpdate, List.length_take]
  · rw [hsc]
    simp [List.length_take, scenarioLogs]

/-- Witness for C7 at the default filter and an oversized stored list. -/
theorem C7_bounded_log_witness :
    (logsHandleLogUpdate defaultLogFilter (mkLog 0)
      (List.replicate 60 (mkLog 1))).length ≤ defaultLogFilter.limit ∧
    scenarioResult = scenarioLogs.reverse.take 50 :=
  ⟨(C7_bounded_log defaultLogFilter (mkLog 0) (List.replicate 60 (mkLog 1))
      (by decide)).1 rfl,
   (C7_bounded_log defaultLogFilter (mkLog 0) [] (by decide)).2.2.2⟩

/-! Lemmas about handler dispatch -/

theorem dispatchHandlers_eq_map {α β : Type} (x : α)
    (hs : List (α → Except String β)) :
    dispatchHandlers x hs = hs.map (fun f => f x) := by
  induction hs with
  | nil => rfl
  | cons f rest ih =>
    cases hfx : f x with
    | ok v => simp [dispatchHandlers, hfx, ih]
    | error msg => simp [dispatchHandlers, hfx, ih]

/-! Claim C8 -/

/-- Claim C8: dispatching an event invokes exactly the handlers registered
for that event, one result per handler, in registration order (on appends at
the end, and the newly registered handler is invoked last); a handler that
throws contributes a caught error in its position while every handler before
and after it is still invoked, and the dispatcher itself always returns the
full result list — nothing propagates out. -/
theorem C8_dispatch_order_isolated {α β : Type}
    (m : String → List (α → Except String β)) (e : String) (x : α)
    (f : α → Except String β) :
    triggerEvent m e x = (m e).map (fun g => g x) ∧
    (triggerEvent m e x).length = (m e).length ∧
    (onRegister m e f) e = m e ++ [f] ∧
    triggerEvent (onRegister m e f) e x = triggerEvent m e x ++ [f x] ∧
    (∀ (hs1 hs2 : List (α → Except String β)) (msg : String),
      f x = Except.error msg →
      dispatchHandlers x (hs1 ++ f :: hs2) =
        dispatchHandlers x hs1 ++ Except.error msg :: dispatchHandlers x hs2) := by
  refine ⟨dispatchHandlers_eq_map x (m e), ?_, ?_, ?_, ?_⟩
  · simp [triggerEvent, dispatchHandlers_eq_map]
  · simp [onRegister]
  · simp [triggerEvent, onRegister, dispatchHandlers_eq_map]
  · intro hs1 hs2 msg hmsg
    simp [dispatchHandlers_eq_map, hmsg]

/-- Witness for C8: a throwing middle handler is caught in place and the
surrounding handlers still run. -/
theorem C8_dispatch_order_isolated_witness :
    dispatchHandlers 3 ([wHandlerOk] ++ wHandlerBad :: [wHandlerOk]) =
      dispatchHandlers 3 [wHandlerOk]
        ++ Except.error "boom" :: dispatchHandlers 3 [wHandlerOk] ∧
    triggerEvent wHandlers "log" 3 = (wHandlers "log").map (fun g => g 3) :=
  ⟨(C8_dispatch_order_isolated wHandlers "log" 3 wHandlerBad).2.2.2.2
     [wHandlerOk] [wHandlerOk] "boom" rfl,
   (C8_dispatch_order_isolated wHandlers "log" 3 wHandlerBad).1⟩

/-! Claim C9 -/

/-- Claim C9: each outbound named request emits exactly one event with its
payload when the channel is connected, and when not connected emits nothing,
leaves a console warning, and buffers nothing — in both cases the client
state is returned unchanged (there is no queue to add to). -/
theorem C9_fire_and_forget (s : SocketState) (opts : Option GetLogsOpts) :
    ((s.socketExists && s.connected) = true →
      socketGetServices s = emittedOut s ("getServices", none) ∧
      socketGetConnections s = emittedOut s ("getConnections", none) ∧
      socketGetLogs opts s = emittedOut s ("getLogs", opts) ∧
      socketGetStats s = emittedOut s ("getStats", none)) ∧
    ((s.socketExists && s.connected) = false →
      socketGetServices s
        = droppedOut s "Cannot get services: Socket not connected" ∧
      socketGetConnections s
        = droppedOut s "Cannot get connections: Socket not connected" ∧
      socketGetLogs opts s
        = droppedOut s "Cannot get logs: Socket not connected" ∧
      socketGetStats s
        = droppedOut s "Cannot get stats: Socket not connected") ∧
    ((socketGetServices s).state = s ∧ (socketGetConnections s).state = s ∧
     (socketGetLogs opts s).state = s ∧ (socketGetStats s).state = s) := by
  refine ⟨?_, ?_, ?_, ?_, ?_, ?_⟩
  · intro h
    refine ⟨?_, ?_, ?_, ?_⟩ <;>
      simp [socketGetServices, socketGetConnections, socketGetLogs,
        socketGetStats, emittedOut, h]
  · intro h
    refine ⟨?_, ?_, ?_, ?_⟩ <;>
      simp [socketGetServices, socketGetConnections, socketGetLogs,
        socketGetStats, droppedOut, h]
  · unfold socketGetServices
    split <;> rfl
  · unfold socketGetConnections
    split <;> rfl
  · unfold socketGetLogs
    split <;> rfl
  · unfold socketGetStats
    split <;> rfl

/-- Witness for C9 at a connected and at a disconnected state. -/
theorem C9_fire_and_forget_witness :
    socketGetServices connState = emittedOut connState ("getServices", none) ∧
    socketGetServices initState
      = droppedOut initState "Cannot get services: Socket not connected" :=
  ⟨((C9_fire_and_forget connState none).1 (by decide)).1,
   ((C9_fire_and_forget initState none).2.1 (by decide)).1⟩

/-! Lemmas about handler removal -/

theorem countP_filter_ne {H : Type} [DecidableEq H] (l : List H) (g f : H)
    (hgf : g ≠ f) :
    (l.filter (fun y => decide (y ≠ f))).countP (fun y => decide (y = g)) =
      l.countP (fun y => decide (y = g)) := by
  induction l with
  | nil => rfl
  | cons a l ih =>
    simp only [ne_eq, decide_not] at ih ⊢
    by_cases haf : a = f
    · subst haf
      simp [List.filter_cons, List.countP_cons, Ne.symm hgf, ih]
    · by_cases hag : a = g
      · subst hag
        simp [List.filter_cons, List.countP_cons, haf, ih]
      · simp [List.filter_cons, List.countP_cons, haf, hag, ih]

/-! Claim C10 -/

/-- Claim C10: off (and the unregistration capability returned by on, which
performs the same removal) deletes every occurrence of the given handler,
by identity, from that event — in particular registering the same handler
twice and unregistering once leaves no occurrence — while the multiplicity
of every other handler on that event and the handler lists of all other
event names are unchanged. -/
theorem C10_off_removes_by_identity {H : Type} [DecidableEq H]
    (m : String → List H) (e e2 : String) (f g : H) :
    f ∉ (offRemove m e f) e ∧
    (offRemove (onRegister (onRegister m e f) e f) e f) e =
      (m e).filter (fun y => decide (y ≠ f)) ∧
    (g ≠ f → ((offRemove m e f) e).countP (fun y => decide (y = g)) =
      (m e).countP (fun y => decide (y = g))) ∧
    (e2 ≠ e → (offRemove m e f) e2 = m e2) := by
  refine ⟨?_, ?_, ?_, ?_⟩
  · simp [offRemove, List.mem_filter]
  · simp [offRemove, onRegister, List.filter_append]
  · intro hgf
    simp only [offRemove, beq_self_eq_true, if_true]
    exact countP_filter_ne (m e) g f hgf
  · intro hne
    simp [offRemove, hne]

/-- Witness for C10 on a registry with a duplicated numeric handler id. -/
theorem C10_off_removes_by_identity_witness :
    7 ∉ (offRemove wRegistry "log" 7) "log" ∧
    (offRemove (onRegister (onRegister wRegistry "log" 7) "log" 7) "log" 7) "log" =
      (wRegistry "log").filter (fun y => decide (y ≠ 7)) ∧
    ((offRemove wRegistry "log" 7) "log").countP (fun y => decide (y = 8)) =
      (wRegistry "log").countP (fun y => decide (y = 8)) ∧
    (offRemove wRegistry "log" 7) "stats" = wRegistry "stats" := by
  have h := C10_off_removes_by_identity wRegistry "log" "stats" 7 8
  exact ⟨h.1, h.2.1, h.2.2.1 (by decide), h.2.2.2 (by decide)⟩

end GrpcDashboard
